import Mathlib

/-!
Shallow embedding of the OpenTelemetry instrumentation layer of
`common/otel/otel.h` and its implementation file (the `llama::otel`
namespace): the `ScopedSpan` RAII wrapper, the `Initialize`/`Shutdown`
provider lifecycle, the cached `GetTracer`/`GetMeter` lookups, the six
metric instruments and their recording functions, and the compile-time
facade macros.

The third-party OpenTelemetry SDK is modelled symbolically, keeping only
what the wrapper observes: providers, tracers, meters, spans and
instruments are identified by natural-number handles drawn from a fresh-id
counter; the SDK's process-wide provider slots (written by
`Provider::SetTracerProvider` / `SetMeterProvider`, read by
`Provider::GetTracerProvider` / `GetMeterProvider`) are explicit `Option`
fields; every span mutation and every instrument `Add`/`Record` call is
recorded in the state so that theorems can speak about which SDK calls a
wrapper operation performs.  Exporters, processors and readers have no
observable state of their own here; the only thing the wrapper observes
about their construction is that it can throw, which is modelled by an
explicit `SdkBehavior` oracle consumed by `Initialize` (the C++ `catch`
converts any such throw into a `false` return, keeping all mutations made
before the throwing step).
-/

namespace LlamaOtel

/-- Kind of a metric instrument, by the SDK factory the source calls:
`CreateCounter` (monotonic), `CreateHistogram`, `CreateUpDownCounter`
(non-monotonic). -/
inductive InstrKind where
  | counter
  | histogram
  | upDownCounter
deriving Repr, DecidableEq

/-- A metric instrument as created by `meter->Create…` in `Initialize`:
its handle, name, description and unit string, and its kind. -/
structure Instrument where
  id : Nat
  iname : String
  descr : String
  unitStr : String
  kind : InstrKind
deriving Repr, DecidableEq

/-- A value recorded on an instrument: the wrapper records `int64_t`
counts (modelled as `Int`; the claims never exercise wraparound) and
`double` durations (modelled as `Rat`, pass-through only — no floating
arithmetic is performed by the wrapper). -/
inductive MeasureVal where
  | int (n : Int)
  | real (q : Rat)
deriving Repr, DecidableEq

/-- The SDK-side data of one span: its name, the attribute writes applied
to it (in call order; the SDK's last-write-wins view is the last entry per
key), the events added (name and the attribute list passed to the SDK
call), its status message, and whether `End` has been called. -/
structure SpanData where
  sname : String
  attrs : List (String × String)
  events : List (String × List (String × String))
  errorStatus : Option String
  ended : Bool
deriving Repr, DecidableEq

/-- Association-list lookup, the model of `std::unordered_map::find`. -/
def assocFind {κ α : Type} [DecidableEq κ] (k : κ) : List (κ × α) → Option α
  | [] => none
  | (k', v) :: rest => if k' = k then some v else assocFind k rest

/-- The process-wide state of the wrapper and of the modelled SDK:
the anonymous-namespace globals of the implementation file
(`g_tracer_provider` … `g_active_requests_counter`), the function-local
static caches of `GetTracer`/`GetMeter` and the static `last_count` of
`SetActiveRequests`, and the modelled SDK state (the two global provider
slots, the created spans, the chronological instrument call log, and the
fresh-handle counter). -/
structure OtelState where
  g_tracer_provider : Option Nat
  g_meter_provider : Option Nat
  g_tokens_counter : Option Instrument
  g_token_time_histogram : Option Instrument
  g_model_load_time_histogram : Option Instrument
  g_memory_usage_counter : Option Instrument
  g_batch_size_histogram : Option Instrument
  g_active_requests_counter : Option Instrument
  tracers : List (String × Nat)
  meters : List (String × Nat)
  last_count : Int
  sdkTracerProviderSlot : Option Nat
  sdkMeterProviderSlot : Option Nat
  spans : List (Nat × SpanData)
  instrLog : List (Nat × MeasureVal)
  nextId : Nat
deriving Repr, DecidableEq

/-- The state at process start: no provider installed, empty caches,
`last_count` zero-initialized, no spans, empty instrument log. -/
def initState : OtelState where
  g_tracer_provider := none
  g_meter_provider := none
  g_tokens_counter := none
  g_token_time_histogram := none
  g_model_load_time_histogram := none
  g_memory_usage_counter := none
  g_batch_size_histogram := none
  g_active_requests_counter := none
  tracers := []
  meters := []
  last_count := 0
  sdkTracerProviderSlot := none
  sdkMeterProviderSlot := none
  spans := []
  instrLog := []
  nextId := 0

/-- `GetTracer(name)`: under the static lock, look `name` up in the static
`tracers` map; on a hit return the cached handle unchanged; on a miss ask
the SDK-global provider slot (`Provider::GetTracerProvider()`) — if a
provider is installed, obtain a fresh tracer handle, cache it and return
it, otherwise return `nullptr` (`none`). -/
def GetTracer (name : String) (s : OtelState) : Option Nat × OtelState :=
  match assocFind name s.tracers with
  | some t => (some t, s)
  | none =>
    match s.sdkTracerProviderSlot with
    | some _ =>
      (some s.nextId,
        { s with tracers := (name, s.nextId) :: s.tracers, nextId := s.nextId + 1 })
    | none => (none, s)

/-- `GetMeter(name)`: same shape as `GetTracer`, over the static `meters`
map and the SDK-global meter provider slot. -/
def GetMeter (name : String) (s : OtelState) : Option Nat × OtelState :=
  match assocFind name s.meters with
  | some m => (some m, s)
  | none =>
    match s.sdkMeterProviderSlot with
    | some _ =>
      (some s.nextId,
        { s with meters := (name, s.nextId) :: s.meters, nextId := s.nextId + 1 })
    | none => (none, s)

/-- Which external SDK constructions succeed during `Initialize`: the two
OTLP exporter factory calls are the fallible construction steps the C++
`try` block guards (a `false` flag models the constructor throwing). -/
structure SdkBehavior where
  traceExporterOk : Bool
  metricExporterOk : Bool
deriving Repr, DecidableEq

/-- `Initialize(service_name, service_version, collector_endpoint)`,
transliterated in the source's statement order.  Inside `try`: build the
resource (pure); build the trace exporter (throw point one); build the
batch processor and the tracer provider and store it in
`g_tracer_provider`; install it in the SDK-global slot
(`Provider::SetTracerProvider`); build the metrics exporter (throw point
two); build the reader, view registry and meter provider, store it in
`g_meter_provider` and install it (`Provider::SetMeterProvider`); call
`GetMeter()` and, if it returned a meter, create the six instruments and
return `true`.  A throw is caught, logged and converted to `false`,
keeping every mutation made before the throwing step. -/
def Initialize (b : SdkBehavior) (serviceName serviceVersion collectorEndpoint : String)
    (s : OtelState) : Bool × OtelState :=
  if b.traceExporterOk then
    let p := s.nextId
    let s1 : OtelState :=
      { s with g_tracer_provider := some p, sdkTracerProviderSlot := some p,
               nextId := s.nextId + 1 }
    if b.metricExporterOk then
      let m := s1.nextId
      let s2 : OtelState :=
        { s1 with g_meter_provider := some m, sdkMeterProviderSlot := some m,
                  nextId := s1.nextId + 1 }
      match GetMeter "llama-cpp" s2 with
      | (some _, s3) =>
        let i := s3.nextId
        (true,
          { s3 with
            g_tokens_counter :=
              some ⟨i, "llama.tokens.count", "Number of tokens generated", "tokens",
                    InstrKind.counter⟩,
            g_token_time_histogram :=
              some ⟨i + 1, "llama.token.time", "Time to generate each token", "ms",
                    InstrKind.histogram⟩,
            g_model_load_time_histogram :=
              some ⟨i + 2, "llama.model.load.time", "Time to load a model", "ms",
                    InstrKind.histogram⟩,
            g_memory_usage_counter :=
              some ⟨i + 3, "llama.memory.usage", "Memory usage", "bytes",
                    InstrKind.upDownCounter⟩,
            g_batch_size_histogram :=
              some ⟨i + 4, "llama.batch.size", "Token batch size", "tokens",
                    InstrKind.histogram⟩,
            g_active_requests_counter :=
              some ⟨i + 5, "llama.requests.active", "Number of active requests",
                    "requests", InstrKind.upDownCounter⟩,
            nextId := i + 6 })
      | (none, s3) => (true, s3)
    else (false, s1)
  else (false, s)

/-- `Shutdown()`: shuts down and resets `g_tracer_provider` and
`g_meter_provider` and resets the six instrument globals.  Faithful to the
source, it does not touch the SDK-global provider slots (no
`SetTracerProvider`/`SetMeterProvider` call is made) and does not clear
the static `tracers`/`meters` caches or `last_count`. -/
def Shutdown (s : OtelState) : OtelState :=
  { s with
    g_tracer_provider := none
    g_meter_provider := none
    g_tokens_counter := none
    g_token_time_histogram := none
    g_model_load_time_histogram := none
    g_memory_usage_counter := none
    g_batch_size_histogram := none
    g_active_requests_counter := none }

/-- Apply `f` to the SDK span with handle `sid`, if present. -/
def updateSpan (sid : Nat) (f : SpanData → SpanData) (s : OtelState) : OtelState :=
  { s with spans := s.spans.map (fun p => if p.1 = sid then (p.1, f p.2) else p) }

/-- The SDK call `tracer->StartSpan(name)`: a fresh span handle with empty
attribute and event lists, not ended. -/
def sdkStartSpan (name : String) (s : OtelState) : Nat × OtelState :=
  (s.nextId,
    { s with
      spans := (s.nextId, ⟨name, [], [], none, false⟩) :: s.spans,
      nextId := s.nextId + 1 })

/-- The SDK call `span->SetAttribute(k, v)`: appended to the span's
attribute write log. -/
def sdkSetAttribute (sid : Nat) (k v : String) (s : OtelState) : OtelState :=
  updateSpan sid (fun d => { d with attrs := d.attrs ++ [(k, v)] }) s

/-- The SDK call `span->AddEvent(name)` (the name-only overload: the
event is recorded with an empty attribute list). -/
def sdkAddEvent (sid : Nat) (name : String) (s : OtelState) : OtelState :=
  updateSpan sid (fun d => { d with events := d.events ++ [(name, [])] }) s

/-- The SDK call `span->SetStatus(kError, msg)`. -/
def sdkSetStatus (sid : Nat) (msg : String) (s : OtelState) : OtelState :=
  updateSpan sid (fun d => { d with errorStatus := some msg }) s

/-- The SDK call `span->End()`. -/
def sdkEndSpan (sid : Nat) (s : OtelState) : OtelState :=
  updateSpan sid (fun d => { d with ended := true }) s

/-- Apply an initial attribute list to a freshly started span, one
`SetAttribute` call per entry (the source iterates the `attributes` map). -/
def applyAttrs (sid : Nat) : List (String × String) → OtelState → OtelState
  | [], s => s
  | (k, v) :: rest, s => applyAttrs sid rest (sdkSetAttribute sid k v s)

/-- The wrapper object: the `span_` member (`nullptr` when no span was
started) and the `active_` flag (`false`-initialized in the header). -/
structure ScopedSpan where
  span_ : Option Nat
  active_ : Bool
deriving Repr, DecidableEq

/-- The root constructor `ScopedSpan(name, attributes)`: calls
`GetTracer()` (default name `"llama-cpp"`); if a tracer is returned,
starts a span, applies the initial attributes, stores the span and sets
`active_`; otherwise the object stays inert. -/
def ScopedSpan.construct (name : String) (attributes : List (String × String))
    (s : OtelState) : ScopedSpan × OtelState :=
  match GetTracer "llama-cpp" s with
  | (some _, s1) =>
    let (sid, s2) := sdkStartSpan name s1
    (⟨some sid, true⟩, applyAttrs sid attributes s2)
  | (none, s1) => (⟨none, false⟩, s1)

/-- The child constructor `ScopedSpan(parent, name, attributes)`: the body
runs only under `if (parent.active_)`; an inactive parent leaves the child
inert without consulting the tracer. -/
def ScopedSpan.constructChild (parent : ScopedSpan) (name : String)
    (attributes : List (String × String)) (s : OtelState) : ScopedSpan × OtelState :=
  if parent.active_ then
    match GetTracer "llama-cpp" s with
    | (some _, s1) =>
      let (sid, s2) := sdkStartSpan name s1
      (⟨some sid, true⟩, applyAttrs sid attributes s2)
    | (none, s1) => (⟨none, false⟩, s1)
  else (⟨none, false⟩, s)

/-- A micro-step of the destructor body, in execution order: the
`span_->End()` call and the `active_ = false` store. -/
inductive DtorStep where
  | endSpan (sid : Nat)
  | clearActive
deriving Repr, DecidableEq

/-- Whether, in a destructor step trace, the `active_` flag is cleared
before any `End` call (true iff a `clearActive` precedes every
`endSpan`). -/
def flagBeforeEnd : List DtorStep → Bool
  | [] => false
  | DtorStep.clearActive :: _ => true
  | DtorStep.endSpan _ :: _ => false

/-- The destructor `~ScopedSpan()`: under `if (active_ && span_)`, calls
`span_->End()` and then stores `active_ = false` — in that source order,
which the returned step trace records.  Returns the object as left by the
destructor body, the new SDK state, and the step trace. -/
def ScopedSpan.destructor (sp : ScopedSpan) (s : OtelState) :
    ScopedSpan × OtelState × List DtorStep :=
  match sp.active_, sp.span_ with
  | true, some sid =>
    (⟨some sid, false⟩, sdkEndSpan sid s, [DtorStep.endSpan sid, DtorStep.clearActive])
  | true, none => (sp, s, [])
  | false, _ => (sp, s, [])

/-- `AddAttribute(key, value)`: guarded by `if (active_ && span_)`. -/
def ScopedSpan.AddAttribute (sp : ScopedSpan) (key value : String)
    (s : OtelState) : OtelState :=
  match sp.active_, sp.span_ with
  | true, some sid => sdkSetAttribute sid key value s
  | _, _ => s

/-- `AddEvent(name, attributes)`: guarded by `if (active_ && span_)`; the
body calls `span_->AddEvent(name)` only — the `attributes` parameter is
not used. -/
def ScopedSpan.AddEvent (sp : ScopedSpan) (name : String)
    (attributes : List (String × String)) (s : OtelState) : OtelState :=
  match sp.active_, sp.span_ with
  | true, some sid => sdkAddEvent sid name s
  | _, _ => s

/-- `RecordException(exception)`: guarded by `if (active_ && span_)`;
records `SetStatus(kError, exception.what())` — the exception is modelled
by its `what()` message. -/
def ScopedSpan.RecordException (sp : ScopedSpan) (whatMsg : String)
    (s : OtelState) : OtelState :=
  match sp.active_, sp.span_ with
  | true, some sid => sdkSetStatus sid whatMsg s
  | _, _ => s

/-- `SetError(message)`: guarded by `if (active_ && span_)`; records
`SetStatus(kError, message)`. -/
def ScopedSpan.SetError (sp : ScopedSpan) (message : String)
    (s : OtelState) : OtelState :=
  match sp.active_, sp.span_ with
  | true, some sid => sdkSetStatus sid message s
  | _, _ => s

/-- `IncrementTokens(count)`: `Add(count)` on `g_tokens_counter` if it was
created, otherwise a no-op. -/
def IncrementTokens (count : Int) (s : OtelState) : OtelState :=
  match s.g_tokens_counter with
  | some inst => { s with instrLog := s.instrLog ++ [(inst.id, MeasureVal.int count)] }
  | none => s

/-- `RecordTokenTime(milliseconds)`: `Record(ms)` on
`g_token_time_histogram` if it was created, otherwise a no-op. -/
def RecordTokenTime (milliseconds : Rat) (s : OtelState) : OtelState :=
  match s.g_token_time_histogram with
  | some inst =>
    { s with instrLog := s.instrLog ++ [(inst.id, MeasureVal.real milliseconds)] }
  | none => s

/-- `RecordModelLoadTime(milliseconds)`: `Record(ms)` on
`g_model_load_time_histogram` if it was created, otherwise a no-op. -/
def RecordModelLoadTime (milliseconds : Rat) (s : OtelState) : OtelState :=
  match s.g_model_load_time_histogram with
  | some inst =>
    { s with instrLog := s.instrLog ++ [(inst.id, MeasureVal.real milliseconds)] }
  | none => s

/-- `RecordMemoryUsage(bytes)`: `Add(bytes)` on `g_memory_usage_counter`
if it was created, otherwise a no-op. -/
def RecordMemoryUsage (bytes : Int) (s : OtelState) : OtelState :=
  match s.g_memory_usage_counter with
  | some inst => { s with instrLog := s.instrLog ++ [(inst.id, MeasureVal.int bytes)] }
  | none => s

/-- `RecordBatchSize(size)`: `Record(size)` on `g_batch_size_histogram`
if it was created, otherwise a no-op. -/
def RecordBatchSize (size : Int) (s : OtelState) : OtelState :=
  match s.g_batch_size_histogram with
  | some inst => { s with instrLog := s.instrLog ++ [(inst.id, MeasureVal.int size)] }
  | none => s

/-- `SetActiveRequests(count)`: under the static lock, if
`g_active_requests_counter` was created, compute
`diff = count - last_count`; if `diff != 0`, call `Add(diff)` and store
`last_count = count`; a zero diff makes no `Add` call.  The lock is
modelled by the call being one atomic step. -/
def SetActiveRequests (count : Int) (s : OtelState) : OtelState :=
  match s.g_active_requests_counter with
  | some inst =>
    let diff := count - s.last_count
    if diff ≠ 0 then
      { s with
        instrLog := s.instrLog ++ [(inst.id, MeasureVal.int diff)],
        last_count := count }
    else s
  | none => s

/-- Run `SetActiveRequests` over a sequence of counts, in order. -/
def setActiveRequestsSeq (counts : List Int) (s : OtelState) : OtelState :=
  counts.foldl (fun st c => SetActiveRequests c st) s

/-- The measurement values the instrument call log holds for instrument
`id`, in chronological order. -/
def addsTo (id : Nat) (log : List (Nat × MeasureVal)) : List MeasureVal :=
  (log.filter (fun p => p.1 = id)).map Prod.snd

/-- The unit taxonomy of the specification's metric catalog (count / time
/ bytes), applied to the source's literal unit strings: `"tokens"` and
`"requests"` are count units, `"ms"` is a time unit, `"bytes"` a byte
unit. -/
inductive UnitClass where
  | count
  | time
  | bytes
  | other
deriving Repr, DecidableEq

/-- Classify a literal unit string of the source into the spec's unit
taxonomy. -/
def unitClassOf : String → UnitClass
  | "tokens" => UnitClass.count
  | "requests" => UnitClass.count
  | "ms" => UnitClass.time
  | "bytes" => UnitClass.bytes
  | _ => UnitClass.other

/-- One call site expanded from the facade macros of the header (the
twelve `LLAMA_OTEL_…` macros). -/
inductive FacadeCall where
  | span (name : String)
  | spanWithParent (name : String)
  | addAttribute (k v : String)
  | addEvent (name : String)
  | recordException (msg : String)
  | setErrorCall (msg : String)
  | incrementTokens (n : Int)
  | recordTokenTime (q : Rat)
  | recordModelLoadTime (q : Rat)
  | recordMemoryUsage (n : Int)
  | recordBatchSize (n : Int)
  | setActiveRequests (n : Int)
deriving Repr, DecidableEq

/-- A step of a host program that uses the facade: either a host action
(abstract, of type `H`) or an instrumentation call site. -/
def HostProg (H : Type) : Type := List (H ⊕ FacadeCall)

/-- Run a host program in the disabled build (`LLAMA_OTEL_ENABLE` not
defined): each facade macro expands to nothing (the empty replacement in
the header's disabled branch), so an instrumentation step leaves the host
state untouched; host actions run normally. -/
def runDisabled {H St : Type} (hrun : H → St → St) : HostProg H → St → St
  | [], s => s
  | Sum.inl h :: rest, s => runDisabled hrun rest (hrun h s)
  | Sum.inr _ :: rest, s => runDisabled hrun rest s

/-- Run a pure host program (no instrumentation steps at all). -/
def runHost {H St : Type} (hrun : H → St → St) : List H → St → St
  | [], s => s
  | h :: rest, s => runHost hrun rest (hrun h s)

/-- Erase every instrumentation call site from a host program. -/
def stripInstr {H : Type} : HostProg H → List H
  | [] => []
  | Sum.inl h :: rest => h :: stripInstr rest
  | Sum.inr _ :: rest => stripInstr rest

/-- The disabled branch of `Initialize` (lines guarded by `#else`): logs
and returns `false`, touching nothing. -/
def InitializeWhenDisabled {St : Type}
    (serviceName serviceVersion collectorEndpoint : String) (s : St) : Bool × St :=
  (false, s)

/-- Well-formedness of one name cache against the fresh-id counter:
pairwise distinct names and handles, and every cached handle below the
counter.  This holds for every state the program can reach (the caches
start empty and each insertion consumes a fresh id). -/
abbrev CacheWF (c : List (String × Nat)) (bound : Nat) : Prop :=
  c.Pairwise (fun a b => a.1 ≠ b.1 ∧ a.2 ≠ b.2) ∧ ∀ p ∈ c, p.2 < bound

/-- Well-formedness of a state: both name caches are well-formed. -/
abbrev WF (s : OtelState) : Prop :=
  CacheWF s.tracers s.nextId ∧ CacheWF s.meters s.nextId

/-! ### Helper lemmas -/

theorem assocFind_mem {κ α : Type} [DecidableEq κ] {k : κ} {v : α} :
    ∀ {c : List (κ × α)}, assocFind k c = some v → (k, v) ∈ c := by
  intro c
  induction c with
  | nil => intro h; simp [assocFind] at h
  | cons p rest ih =>
    intro h
    obtain ⟨k', v'⟩ := p
    by_cases hk : k' = k
    · simp only [assocFind, if_pos hk, Option.some.injEq] at h
      subst hk; subst h
      exact List.mem_cons_self _ _
    · simp only [assocFind, if_neg hk] at h
      exact List.mem_cons_of_mem _ (ih h)

theorem cacheWF_find_ne {c : List (String × Nat)} {b : Nat} (hwf : CacheWF c b)
    {n m : String} {t u : Nat} (hn : assocFind n c = some t)
    (hm : assocFind m c = some u) (hnm : n ≠ m) : t ≠ u := by
  have hsym : Symmetric (fun a b : String × Nat => a.1 ≠ b.1 ∧ a.2 ≠ b.2) :=
    fun a b hab => ⟨Ne.symm hab.1, Ne.symm hab.2⟩
  exact (List.Pairwise.forall hsym hwf.1 (assocFind_mem hn) (assocFind_mem hm)
    (fun hEq => hnm (congrArg Prod.fst hEq))).2

theorem cacheWF_find_lt {c : List (String × Nat)} {b : Nat} (hwf : CacheWF c b)
    {n : String} {t : Nat} (hn : assocFind n c = some t) : t < b :=
  hwf.2 _ (assocFind_mem hn)

theorem assocFind_map_update {α : Type} (sid : Nat) (f : α → α) :
    ∀ l : List (Nat × α),
      assocFind sid (l.map fun p => if p.1 = sid then (p.1, f p.2) else p) =
        (assocFind sid l).map f := by
  intro l
  induction l with
  | nil => rfl
  | cons p rest ih =>
    obtain ⟨k, v⟩ := p
    rw [List.map_cons]
    by_cases hk : k = sid
    · have h1 : (if (k, v).1 = sid then ((k, v).1, f (k, v).2) else (k, v))
          = (k, f v) := by simp [hk]
      rw [h1]
      subst hk
      simp [assocFind, ih]
    · have h1 : (if (k, v).1 = sid then ((k, v).1, f (k, v).2) else (k, v))
          = (k, v) := by simp [hk]
      rw [h1]
      simp [assocFind, hk, ih]

theorem assocFind_updateSpan (sid : Nat) (f : SpanData → SpanData) (s : OtelState) :
    assocFind sid (updateSpan sid f s).spans = (assocFind sid s.spans).map f :=
  assocFind_map_update sid f s.spans

theorem getMeter_nextId_le (name : String) (s : OtelState) :
    s.nextId ≤ (GetMeter name s).2.nextId := by
  simp only [GetMeter]
  cases h : assocFind name s.meters with
  | some m => exact Nat.le_refl _
  | none =>
    cases hs : s.sdkMeterProviderSlot with
    | some p => exact Nat.le_succ _
    | none => exact Nat.le_refl _

/-! ### The claims -/

/-- C9: with instrumentation compiled out (`LLAMA_OTEL_ENABLE` not
defined), every facade macro expands to a literal no-op, so running any
host program interleaved with instrumentation call sites in the disabled
build equals running the same program with every instrumentation call
removed; and the disabled branch of `Initialize` returns `false` leaving
the state untouched. -/
theorem disabled_build_equals_uninstrumented {H St : Type} (hrun : H → St → St)
    (prog : HostProg H) (s : St) :
    runDisabled hrun prog s = runHost hrun (stripInstr prog) s ∧
    ∀ sn sv ep : String, InitializeWhenDisabled sn sv ep s = (false, s) := by
  constructor
  · induction prog generalizing s with
    | nil => rfl
    | cons step rest ih =>
      cases step with
      | inl h => simpa [runDisabled, stripInstr, runHost] using ih (hrun h s)
      | inr c => simpa [runDisabled, stripInstr] using ih s
  · intro sn sv ep
    rfl

/-- C10: on an active `ScopedSpan`, `AddEvent(name, attributes)` calls the
name-only SDK overload `span_->AddEvent(name)`: the supplied attribute map
is discarded, so any two attribute maps produce the identical
underlying-span operation, and the event is recorded on the span with its
name and no attributes. -/
theorem addEvent_discards_attributes (sp : ScopedSpan) (name : String)
    (a1 a2 : List (String × String)) (s : OtelState) (sid : Nat) (d : SpanData)
    (hact : sp.active_ = true) (hsp : sp.span_ = some sid)
    (hd : assocFind sid s.spans = some d) :
    sp.AddEvent name a1 s = sp.AddEvent name a2 s ∧
    sp.AddEvent name a1 s = sdkAddEvent sid name s ∧
    assocFind sid (sp.AddEvent name a1 s).spans =
      some { d with events := d.events ++ [(name, [])] } := by
  refine ⟨?_, ?_, ?_⟩
  · simp [ScopedSpan.AddEvent, hact, hsp]
  · simp [ScopedSpan.AddEvent, hact, hsp]
  · simp only [ScopedSpan.AddEvent, hact, hsp, sdkAddEvent]
    rw [assocFind_updateSpan, hd]
    rfl

/-- C10 witness: the theorem applied to a concrete active span over a
concrete state holding that span. -/
theorem addEvent_discards_attributes_witness :
    ScopedSpan.AddEvent ⟨some 0, true⟩ "ev" [("a", "1")]
        { initState with spans := [(0, ⟨"op", [], [], none, false⟩)] } =
      ScopedSpan.AddEvent ⟨some 0, true⟩ "ev" [("b", "2")]
        { initState with spans := [(0, ⟨"op", [], [], none, false⟩)] } :=
  (addEvent_discards_attributes ⟨some 0, true⟩ "ev" [("a", "1")] [("b", "2")]
    { initState with spans := [(0, ⟨"op", [], [], none, false⟩)] } 0
    ⟨"op", [], [], none, false⟩ rfl rfl rfl).1

/-- C5: a child `ScopedSpan` constructed from an inactive parent is itself
inactive: its active flag is false, no underlying span is started (the SDK
state is untouched), and every one of its methods, the destructor
included, is a no-op — for every state, hence regardless of whether a
tracer would be resolvable. -/
theorem child_of_inactive_parent_inert (parent : ScopedSpan)
    (hp : parent.active_ = false) (name : String)
    (attrs : List (String × String)) (s s2 : OtelState)
    (k v en msg : String) (ea : List (String × String)) :
    (parent.constructChild name attrs s).1.active_ = false ∧
    (parent.constructChild name attrs s).1.span_ = none ∧
    (parent.constructChild name attrs s).2 = s ∧
    (parent.constructChild name attrs s).1.AddAttribute k v s2 = s2 ∧
    (parent.constructChild name attrs s).1.AddEvent en ea s2 = s2 ∧
    (parent.constructChild name attrs s).1.RecordException msg s2 = s2 ∧
    (parent.constructChild name attrs s).1.SetError msg s2 = s2 ∧
    (parent.constructChild name attrs s).1.destructor s2 =
      ((parent.constructChild name attrs s).1, s2, []) := by
  have hc : parent.constructChild name attrs s = (⟨none, false⟩, s) := by
    simp [ScopedSpan.constructChild, hp]
  rw [hc]
  exact ⟨rfl, rfl, rfl, rfl, rfl, rfl, rfl, rfl⟩

/-- C5 witness: the theorem applied to a concrete inactive parent. -/
theorem child_of_inactive_parent_inert_witness :
    (ScopedSpan.constructChild ⟨none, false⟩ "child" [] initState).1.active_ = false ∧
    (ScopedSpan.constructChild ⟨none, false⟩ "child" [] initState).2 = initState :=
  ⟨(child_of_inactive_parent_inert ⟨none, false⟩ rfl "child" [] initState initState
      "k" "v" "e" "m" []).1,
   (child_of_inactive_parent_inert ⟨none, false⟩ rfl "child" [] initState initState
      "k" "v" "e" "m" []).2.2.1⟩

/-- C8: every recording function is a no-op — the state, the instrument
call log included, is unchanged — whenever the corresponding instrument
global was never created; being a total function, it raises nothing. -/
theorem recorders_noop_without_instrument (s : OtelState) (k b sz c : Int)
    (q1 q2 : Rat) :
    (s.g_tokens_counter = none → IncrementTokens k s = s) ∧
    (s.g_token_time_histogram = none → RecordTokenTime q1 s = s) ∧
    (s.g_model_load_time_histogram = none → RecordModelLoadTime q2 s = s) ∧
    (s.g_memory_usage_counter = none → RecordMemoryUsage b s = s) ∧
    (s.g_batch_size_histogram = none → RecordBatchSize sz s = s) ∧
    (s.g_active_requests_counter = none → SetActiveRequests c s = s) := by
  refine ⟨?_, ?_, ?_, ?_, ?_, ?_⟩ <;> intro h
  · simp [IncrementTokens, h]
  · simp [RecordTokenTime, h]
  · simp [RecordModelLoadTime, h]
  · simp [RecordMemoryUsage, h]
  · simp [RecordBatchSize, h]
  · simp [SetActiveRequests, h]

/-- C8 witness: the theorem applied to the start state, in which no
instrument was ever created. -/
theorem recorders_noop_without_instrument_witness :
    IncrementTokens 3 initState = initState ∧
    SetActiveRequests 4 initState = initState :=
  ⟨(recorders_noop_without_instrument initState 3 0 0 4 0 0).1 rfl,
   (recorders_noop_without_instrument initState 3 0 0 4 0 0).2.2.2.2.2 rfl⟩

/-- C2, the code's behavior at the failing input: `Initialize` succeeds,
`Shutdown` runs (clearing `g_tracer_provider`), yet a subsequently
constructed root span observes a tracer — `Shutdown` never uninstalls the
SDK-global provider slot and never clears the static caches — and comes up
with its active flag true, contradicting the claimed inertness. -/
theorem span_after_shutdown_is_active :
    (Initialize ⟨true, true⟩ "svc" "1.0" "localhost:4317" initState).1 = true ∧
    (Shutdown (Initialize ⟨true, true⟩ "svc" "1.0" "localhost:4317"
        initState).2).g_tracer_provider = none ∧
    (Shutdown (Initialize ⟨true, true⟩ "svc" "1.0" "localhost:4317"
        initState).2).sdkTracerProviderSlot = some 0 ∧
    (ScopedSpan.construct "op" []
        (Shutdown (Initialize ⟨true, true⟩ "svc" "1.0" "localhost:4317"
          initState).2)).1.active_ = true :=
  ⟨rfl, rfl, rfl, rfl⟩

/-- C1 counterexample: `Initialize` with a trace exporter that constructs
fine and a metrics exporter whose construction throws returns `false`,
yet the process-wide trace provider changed from `none` to installed — a
half-initialized state is observable. -/
theorem initialize_failure_leaves_tracer_installed :
    (Initialize ⟨true, false⟩ "svc" "1.0" "bad-endpoint" initState).1 = false ∧
    initState.g_tracer_provider = none ∧
    (Initialize ⟨true, false⟩ "svc" "1.0" "bad-endpoint"
        initState).2.g_tracer_provider = some 0 ∧
    (Initialize ⟨true, false⟩ "svc" "1.0" "bad-endpoint"
        initState).2.sdkTracerProviderSlot = some 0 ∧
    (Initialize ⟨true, false⟩ "svc" "1.0" "bad-endpoint"
        initState).2.g_tracer_provider ≠ initState.g_tracer_provider :=
  ⟨rfl, rfl, rfl, rfl, by decide⟩

/-- C3 counterexample: a concrete active span destroyed after a successful
`Initialize`: the destructor's micro-step trace is the `End` call
followed by the `active_ = false` store, so the active flag is not
flipped off first (the span is ended before the flag flips). -/
theorem destructor_ends_span_before_flag_flip :
    ((ScopedSpan.construct "op" []
        (Initialize ⟨true, true⟩ "svc" "1.0" "ep" initState).2).1).active_ = true ∧
    (((ScopedSpan.construct "op" []
          (Initialize ⟨true, true⟩ "svc" "1.0" "ep" initState).2).1).destructor
        ((ScopedSpan.construct "op" []
          (Initialize ⟨true, true⟩ "svc" "1.0" "ep" initState).2).2)).2.2 =
      [DtorStep.endSpan 10, DtorStep.clearActive] ∧
    flagBeforeEnd (((ScopedSpan.construct "op" []
          (Initialize ⟨true, true⟩ "svc" "1.0" "ep" initState).2).1).destructor
        ((ScopedSpan.construct "op" []
          (Initialize ⟨true, true⟩ "svc" "1.0" "ep" initState).2).2)).2.2 = false :=
  ⟨rfl, rfl, rfl⟩

/-- The state after one successful `Initialize` on the start state, used
as a concrete reachable state by several witnesses. -/
def postInitState : OtelState :=
  (Initialize ⟨true, true⟩ "svc" "1.0" "ep" initState).2

/-- C6: with the active-requests counter present, `SetActiveRequests(c)`
leaves `last_count = c`; a call whose delta is zero changes nothing (no
`Add` call), and a call with a non-zero delta appends exactly one
`Add(c - last_count)` to the instrument call log; the sequence
`5, 5, 8, 3` run from a freshly initialized state produces exactly the
`Add` calls `+5, +3, -5` on the active-requests counter. -/
theorem setActiveRequests_delta_semantics (s : OtelState) (inst : Instrument)
    (h : s.g_active_requests_counter = some inst) (c : Int) :
    ((SetActiveRequests c s).last_count = c) ∧
    (c = s.last_count → SetActiveRequests c s = s) ∧
    (c ≠ s.last_count →
      (SetActiveRequests c s).instrLog =
        s.instrLog ++ [(inst.id, MeasureVal.int (c - s.last_count))]) ∧
    (postInitState.g_active_requests_counter.map Instrument.id = some 8) ∧
    addsTo 8 (setActiveRequestsSeq [5, 5, 8, 3] postInitState).instrLog =
      [MeasureVal.int 5, MeasureVal.int 3, MeasureVal.int (-5)] := by
  refine ⟨?_, ?_, ?_, rfl, rfl⟩
  · simp only [SetActiveRequests, h]
    split_ifs with hd
    · rfl
    · omega
  · intro hc
    simp only [SetActiveRequests, h]
    split_ifs with hd
    · omega
    · rfl
  · intro hc
    simp only [SetActiveRequests, h]
    split_ifs with hd
    · rfl
    · omega

/-- C6 witness: the theorem applied to the freshly initialized state and
the concrete count 7. -/
theorem setActiveRequests_delta_semantics_witness :
    (SetActiveRequests 7 postInitState).last_count = 7 :=
  (setActiveRequests_delta_semantics postInitState
    ⟨8, "llama.requests.active", "Number of active requests", "requests",
      InstrKind.upDownCounter⟩ rfl 7).1

/-- `GetMeter` returns a meter whenever the SDK-global meter provider slot
holds a provider, and never rewinds the fresh-id counter. -/
theorem getMeter_some_of_slot (name : String) (s : OtelState) (p : Nat)
    (h : s.sdkMeterProviderSlot = some p) :
    ∃ r s3, GetMeter name s = (some r, s3) ∧ s.nextId ≤ s3.nextId := by
  simp only [GetMeter]
  cases hf : assocFind name s.meters with
  | some m => exact ⟨m, s, rfl, Nat.le_refl _⟩
  | none =>
    rw [h]
    exact ⟨s.nextId, _, rfl, Nat.le_succ _⟩

/-- C7: a successful `Initialize` creates exactly one instance of each of
the six instruments, at six consecutive fresh handles: a monotonic
counter with count unit (`"tokens"`) for tokens generated, `"ms"`-unit
(time) histograms for per-token latency and model-load latency, a
non-monotonic (up/down) counter with unit `"bytes"` for memory usage, a
histogram with count unit (`"tokens"`) for batch size, and a non-monotonic
(up/down) counter with count unit (`"requests"`) for active requests. -/
theorem initialize_creates_six_instruments (b : SdkBehavior) (sn sv ep : String)
    (s : OtelState) (h : (Initialize b sn sv ep s).1 = true) :
    ∃ i : Nat, s.nextId ≤ i ∧
      (Initialize b sn sv ep s).2.g_tokens_counter =
        some ⟨i, "llama.tokens.count", "Number of tokens generated", "tokens",
          InstrKind.counter⟩ ∧
      (Initialize b sn sv ep s).2.g_token_time_histogram =
        some ⟨i + 1, "llama.token.time", "Time to generate each token", "ms",
          InstrKind.histogram⟩ ∧
      (Initialize b sn sv ep s).2.g_model_load_time_histogram =
        some ⟨i + 2, "llama.model.load.time", "Time to load a model", "ms",
          InstrKind.histogram⟩ ∧
      (Initialize b sn sv ep s).2.g_memory_usage_counter =
        some ⟨i + 3, "llama.memory.usage", "Memory usage", "bytes",
          InstrKind.upDownCounter⟩ ∧
      (Initialize b sn sv ep s).2.g_batch_size_histogram =
        some ⟨i + 4, "llama.batch.size", "Token batch size", "tokens",
          InstrKind.histogram⟩ ∧
      (Initialize b sn sv ep s).2.g_active_requests_counter =
        some ⟨i + 5, "llama.requests.active", "Number of active requests",
          "requests", InstrKind.upDownCounter⟩ ∧
      (Initialize b sn sv ep s).2.nextId = i + 6 ∧
      unitClassOf "tokens" = UnitClass.count ∧ unitClassOf "ms" = UnitClass.time ∧
      unitClassOf "bytes" = UnitClass.bytes ∧
      unitClassOf "requests" = UnitClass.count := by
  rcases b with ⟨te, me⟩
  cases te with
  | false => simp [Initialize] at h
  | true =>
    cases me with
    | false => simp [Initialize] at h
    | true =>
      obtain ⟨r, s3, hgm, hle⟩ := getMeter_some_of_slot "llama-cpp"
        { s with g_tracer_provider := some s.nextId,
                 sdkTracerProviderSlot := some s.nextId,
                 g_meter_provider := some (s.nextId + 1),
                 sdkMeterProviderSlot := some (s.nextId + 1),
                 nextId := s.nextId + 1 + 1 }
        (s.nextId + 1) rfl
      refine ⟨s3.nextId, ?_, ?_⟩
      · exact Nat.le_trans (Nat.le_add_right _ 2) hle
      · simp only [Initialize, if_true]
        rw [hgm]
        exact ⟨rfl, rfl, rfl, rfl, rfl, rfl, rfl, rfl, rfl, rfl, rfl⟩

/-- C7 witness: the theorem applied to a successful concrete
initialization. -/
theorem initialize_creates_six_instruments_witness :
    ∃ i : Nat, initState.nextId ≤ i ∧
      (Initialize ⟨true, true⟩ "svc" "1.0" "ep" initState).2.g_tokens_counter =
        some ⟨i, "llama.tokens.count", "Number of tokens generated", "tokens",
          InstrKind.counter⟩ ∧
      (Initialize ⟨true, true⟩ "svc" "1.0" "ep" initState).2.g_token_time_histogram =
        some ⟨i + 1, "llama.token.time", "Time to generate each token", "ms",
          InstrKind.histogram⟩ ∧
      (Initialize ⟨true, true⟩ "svc" "1.0" "ep"
          initState).2.g_model_load_time_histogram =
        some ⟨i + 2, "llama.model.load.time", "Time to load a model", "ms",
          InstrKind.histogram⟩ ∧
      (Initialize ⟨true, true⟩ "svc" "1.0" "ep" initState).2.g_memory_usage_counter =
        some ⟨i + 3, "llama.memory.usage", "Memory usage", "bytes",
          InstrKind.upDownCounter⟩ ∧
      (Initialize ⟨true, true⟩ "svc" "1.0" "ep" initState).2.g_batch_size_histogram =
        some ⟨i + 4, "llama.batch.size", "Token batch size", "tokens",
          InstrKind.histogram⟩ ∧
      (Initialize ⟨true, true⟩ "svc" "1.0" "ep"
          initState).2.g_active_requests_counter =
        some ⟨i + 5, "llama.requests.active", "Number of active requests",
          "requests", InstrKind.upDownCounter⟩ ∧
      (Initialize ⟨true, true⟩ "svc" "1.0" "ep" initState).2.nextId = i + 6 ∧
      unitClassOf "tokens" = UnitClass.count ∧ unitClassOf "ms" = UnitClass.time ∧
      unitClassOf "bytes" = UnitClass.bytes ∧
      unitClassOf "requests" = UnitClass.count :=
  initialize_creates_six_instruments ⟨true, true⟩ "svc" "1.0" "ep" initState rfl

/-- C1 amended: whenever `Initialize` returns `false`, the meter provider,
its SDK-global slot, all six instrument globals and both name caches are
unchanged; and if the failure is the first fallible step (trace-exporter
construction), the whole state is unchanged — but a failure in the later
metrics-exporter step leaves the already-installed trace provider behind
(the counterexample), so the claimed full restoration does not hold. -/
theorem initialize_failure_frame (b : SdkBehavior) (sn sv ep : String)
    (s : OtelState) (h : (Initialize b sn sv ep s).1 = false) :
    (b.traceExporterOk = false ∨ b.metricExporterOk = false) ∧
    (Initialize b sn sv ep s).2.g_meter_provider = s.g_meter_provider ∧
    (Initialize b sn sv ep s).2.sdkMeterProviderSlot = s.sdkMeterProviderSlot ∧
    (Initialize b sn sv ep s).2.g_tokens_counter = s.g_tokens_counter ∧
    (Initialize b sn sv ep s).2.g_token_time_histogram = s.g_token_time_histogram ∧
    (Initialize b sn sv ep s).2.g_model_load_time_histogram =
      s.g_model_load_time_histogram ∧
    (Initialize b sn sv ep s).2.g_memory_usage_counter = s.g_memory_usage_counter ∧
    (Initialize b sn sv ep s).2.g_batch_size_histogram = s.g_batch_size_histogram ∧
    (Initialize b sn sv ep s).2.g_active_requests_counter =
      s.g_active_requests_counter ∧
    (Initialize b sn sv ep s).2.meters = s.meters ∧
    (Initialize b sn sv ep s).2.tracers = s.tracers ∧
    (b.traceExporterOk = false → (Initialize b sn sv ep s).2 = s) := by
  rcases b with ⟨te, me⟩
  cases te with
  | false =>
    exact ⟨Or.inl rfl, rfl, rfl, rfl, rfl, rfl, rfl, rfl, rfl, rfl, rfl,
      fun _ => rfl⟩
  | true =>
    cases me with
    | false =>
      refine ⟨Or.inr rfl, rfl, rfl, rfl, rfl, rfl, rfl, rfl, rfl, rfl, rfl, ?_⟩
      intro hfalse
      exact absurd hfalse (by simp)
    | true =>
      exfalso
      obtain ⟨r, s3, hgm, _⟩ := getMeter_some_of_slot "llama-cpp"
        { s with g_tracer_provider := some s.nextId,
                 sdkTracerProviderSlot := some s.nextId,
                 g_meter_provider := some (s.nextId + 1),
                 sdkMeterProviderSlot := some (s.nextId + 1),
                 nextId := s.nextId + 1 + 1 }
        (s.nextId + 1) rfl
      rw [show (Initialize ⟨true, true⟩ sn sv ep s).1 = true by
        simp only [Initialize, if_true]; rw [hgm]] at h
      simp at h

/-- C1 witness: the theorem applied to a failure of the first fallible
step on the start state. -/
theorem initialize_failure_frame_witness :
    (Initialize ⟨false, true⟩ "svc" "1.0" "ep" initState).2.g_meter_provider =
      initState.g_meter_provider ∧
    (Initialize ⟨false, true⟩ "svc" "1.0" "ep" initState).2 = initState :=
  ⟨(initialize_failure_frame ⟨false, true⟩ "svc" "1.0" "ep" initState rfl).2.1,
   (initialize_failure_frame ⟨false, true⟩ "svc" "1.0" "ep"
      initState rfl).2.2.2.2.2.2.2.2.2.2.2 rfl⟩

/-- C3 amended: destroying a `ScopedSpan` that is active and holds a span
performs exactly one `End` call followed by the `active_ = false` store
(End first, then the flag flip — not the claimed flag-first order); the
result is inactive, the underlying SDK span is marked ended, and
re-running the destruction logic on the result is a no-op; a span that
was never active is never ended and its destruction changes nothing. -/
theorem destructor_ends_once (sp : ScopedSpan) (s : OtelState) :
    (∀ sid, sp.active_ = true → sp.span_ = some sid →
      (sp.destructor s).2.2 = [DtorStep.endSpan sid, DtorStep.clearActive] ∧
      (sp.destructor s).1.active_ = false ∧
      (sp.destructor s).1.span_ = some sid ∧
      assocFind sid ((sp.destructor s).2.1).spans =
        (assocFind sid s.spans).map (fun d => { d with ended := true }) ∧
      (sp.destructor s).1.destructor (sp.destructor s).2.1 =
        ((sp.destructor s).1, (sp.destructor s).2.1, [])) ∧
    (sp.active_ = false → sp.destructor s = (sp, s, [])) := by
  constructor
  · intro sid hact hsp
    have hd : sp.destructor s =
        (⟨some sid, false⟩, sdkEndSpan sid s,
          [DtorStep.endSpan sid, DtorStep.clearActive]) := by
      simp [ScopedSpan.destructor, hact, hsp]
    rw [hd]
    exact ⟨rfl, rfl, rfl, assocFind_updateSpan sid _ s, rfl⟩
  · intro hact
    simp [ScopedSpan.destructor, hact]

/-- C3 witness: the amended theorem applied to a concrete active span. -/
theorem destructor_ends_once_witness :
    ((⟨some 0, true⟩ : ScopedSpan).destructor initState).2.2 =
      [DtorStep.endSpan 0, DtorStep.clearActive] ∧
    ((⟨some 0, true⟩ : ScopedSpan).destructor initState).1.active_ = false :=
  ⟨((destructor_ends_once ⟨some 0, true⟩ initState).1 0 rfl rfl).1,
   ((destructor_ends_once ⟨some 0, true⟩ initState).1 0 rfl rfl).2.1⟩

/-- The state a cache miss in `GetTracer` leaves behind: the fresh handle
cached under the name, the counter advanced. -/
def cacheInsertTracer (name : String) (s : OtelState) : OtelState :=
  { s with tracers := (name, s.nextId) :: s.tracers, nextId := s.nextId + 1 }

/-- The state a cache miss in `GetMeter` leaves behind. -/
def cacheInsertMeter (name : String) (s : OtelState) : OtelState :=
  { s with meters := (name, s.nextId) :: s.meters, nextId := s.nextId + 1 }

theorem getTracer_hit {name : String} {s : OtelState} {t : Nat}
    (h : assocFind name s.tracers = some t) : GetTracer name s = (some t, s) := by
  simp [GetTracer, h]

theorem getTracer_miss {name : String} {s : OtelState} {p : Nat}
    (h : assocFind name s.tracers = none) (hp : s.sdkTracerProviderSlot = some p) :
    GetTracer name s = (some s.nextId, cacheInsertTracer name s) := by
  simp [GetTracer, h, hp, cacheInsertTracer]

theorem getMeter_hit {name : String} {s : OtelState} {t : Nat}
    (h : assocFind name s.meters = some t) : GetMeter name s = (some t, s) := by
  simp [GetMeter, h]

theorem getMeter_miss {name : String} {s : OtelState} {p : Nat}
    (h : assocFind name s.meters = none) (hp : s.sdkMeterProviderSlot = some p) :
    GetMeter name s = (some s.nextId, cacheInsertMeter name s) := by
  simp [GetMeter, h, hp, cacheInsertMeter]

/-- C4: while a provider is installed, in any state whose caches are
well-formed (as every reachable state's are): a lookup returns a handle;
a second lookup of the same name returns the identical handle stored by
the first, with the state unchanged; the handle returned is exactly the
cache entry left for that name; lookups of distinct names return distinct
handles; a lookup touches no cache entry but its own name; and the caches
start empty (populated lazily on first miss, never pre-populated).  Both
for `GetTracer` and for `GetMeter`. -/
theorem cached_lookup_idempotent_distinct (s : OtelState) (hwf : WF s)
    (hp : s.sdkTracerProviderSlot.isSome) (hq : s.sdkMeterProviderSlot.isSome)
    (n m : String) (hnm : n ≠ m) :
    ((GetTracer n s).1.isSome ∧
      (GetTracer n (GetTracer n s).2).1 = (GetTracer n s).1 ∧
      (GetTracer n (GetTracer n s).2).2 = (GetTracer n s).2 ∧
      (GetTracer n s).1 = assocFind n (GetTracer n s).2.tracers ∧
      (GetTracer m (GetTracer n s).2).1 ≠ (GetTracer n s).1 ∧
      (∀ k, k ≠ n → assocFind k (GetTracer n s).2.tracers = assocFind k s.tracers)) ∧
    ((GetMeter n s).1.isSome ∧
      (GetMeter n (GetMeter n s).2).1 = (GetMeter n s).1 ∧
      (GetMeter n (GetMeter n s).2).2 = (GetMeter n s).2 ∧
      (GetMeter n s).1 = assocFind n (GetMeter n s).2.meters ∧
      (GetMeter m (GetMeter n s).2).1 ≠ (GetMeter n s).1 ∧
      (∀ k, k ≠ n → assocFind k (GetMeter n s).2.meters = assocFind k s.meters)) ∧
    initState.tracers = [] ∧ initState.meters = [] := by
  obtain ⟨pid, hpid⟩ := Option.isSome_iff_exists.mp hp
  obtain ⟨qid, hqid⟩ := Option.isSome_iff_exists.mp hq
  refine ⟨?_, ?_, rfl, rfl⟩
  · cases hf : assocFind n s.tracers with
    | some t =>
      have h1 := getTracer_hit hf
      rw [h1]
      refine ⟨rfl, ?_, ?_, hf.symm, ?_, fun k _ => rfl⟩
      · rw [h1]
      · rw [h1]
      · cases hfm : assocFind m s.tracers with
        | some u =>
          rw [getTracer_hit hfm]
          have hne : u ≠ t := cacheWF_find_ne hwf.1 hfm hf (Ne.symm hnm)
          simp [hne]
        | none =>
          rw [getTracer_miss hfm hpid]
          have hlt : t < s.nextId := cacheWF_find_lt hwf.1 hf
          simp only [ne_eq, Option.some.injEq]
          omega
    | none =>
      have h1 := getTracer_miss hf hpid
      have hf2 : assocFind n (cacheInsertTracer n s).tracers = some s.nextId := by
        simp [cacheInsertTracer, assocFind]
      have hskip : ∀ k, k ≠ n →
          assocFind k (cacheInsertTracer n s).tracers = assocFind k s.tracers := by
        intro k hk
        simp [cacheInsertTracer, assocFind, Ne.symm hk]
      rw [h1]
      refine ⟨rfl, ?_, ?_, hf2.symm, ?_, hskip⟩
      · rw [getTracer_hit hf2]
      · rw [getTracer_hit hf2]
      · cases hfm : assocFind m s.tracers with
        | some u =>
          rw [getTracer_hit ((hskip m (Ne.symm hnm)).trans hfm)]
          have hlt : u < s.nextId := cacheWF_find_lt hwf.1 hfm
          simp only [ne_eq, Option.some.injEq]
          omega
        | none =>
          have hpid2 : (cacheInsertTracer n s).sdkTracerProviderSlot = some pid := hpid
          rw [getTracer_miss ((hskip m (Ne.symm hnm)).trans hfm) hpid2]
          show some (s.nextId + 1) ≠ some s.nextId
          simp only [ne_eq, Option.some.injEq]
          omega
  · cases hf : assocFind n s.meters with
    | some t =>
      have h1 := getMeter_hit hf
      rw [h1]
      refine ⟨rfl, ?_, ?_, hf.symm, ?_, fun k _ => rfl⟩
      · rw [h1]
      · rw [h1]
      · cases hfm : assocFind m s.meters with
        | some u =>
          rw [getMeter_hit hfm]
          have hne : u ≠ t := cacheWF_find_ne hwf.2 hfm hf (Ne.symm hnm)
          simp [hne]
        | none =>
          rw [getMeter_miss hfm hqid]
          have hlt : t < s.nextId := cacheWF_find_lt hwf.2 hf
          simp only [ne_eq, Option.some.injEq]
          omega
    | none =>
      have h1 := getMeter_miss hf hqid
      have hf2 : assocFind n (cacheInsertMeter n s).meters = some s.nextId := by
        simp [cacheInsertMeter, assocFind]
      have hskip : ∀ k, k ≠ n →
          assocFind k (cacheInsertMeter n s).meters = assocFind k s.meters := by
        intro k hk
        simp [cacheInsertMeter, assocFind, Ne.symm hk]
      rw [h1]
      refine ⟨rfl, ?_, ?_, hf2.symm, ?_, hskip⟩
      · rw [getMeter_hit hf2]
      · rw [getMeter_hit hf2]
      · cases hfm : assocFind m s.meters with
        | some u =>
          rw [getMeter_hit ((hskip m (Ne.symm hnm)).trans hfm)]
          have hlt : u < s.nextId := cacheWF_find_lt hwf.2 hfm
          simp only [ne_eq, Option.some.injEq]
          omega
        | none =>
          have hqid2 : (cacheInsertMeter n s).sdkMeterProviderSlot = some qid := hqid
          rw [getMeter_miss ((hskip m (Ne.symm hnm)).trans hfm) hqid2]
          show some (s.nextId + 1) ≠ some s.nextId
          simp only [ne_eq, Option.some.injEq]
          omega

/-- C4 witness: the theorem applied to the freshly initialized state and
the distinct names "alpha" and "beta". -/
theorem cached_lookup_idempotent_distinct_witness :
    (GetTracer "alpha" postInitState).1.isSome ∧
    (GetMeter "beta" (GetMeter "alpha" postInitState).2).1 ≠
      (GetMeter "alpha" postInitState).1 :=
  ⟨(cached_lookup_idempotent_distinct postInitState (by decide) (by decide)
      (by decide) "alpha" "beta" (by decide)).1.1,
   (cached_lookup_idempotent_distinct postInitState (by decide) (by decide)
      (by decide) "alpha" "beta" (by decide)).2.1.2.2.2.2.1⟩

end LlamaOtel
